import Mathlib

/-!
# Chaos geometry-collection collision structure manager

A shallow embedding of
`Engine/Source/Runtime/Experimental/Chaos/Private/GeometryCollection/GeometryCollectionCollisionStructureManager.cpp`
and theorems about it.

Conventions of the embedding.

* `float` is idealised: exact rational arithmetic plus one NaN value.  Rounding and infinities are
  not modelled; every comparison with NaN is false, every operation on NaN gives NaN.
* `int32` values are integers; a product is wrapped to 32 bits.
* A pointer that may be null is an `Option`.
* Engine routines whose code is not in this translation unit (spatial pruning, rasterisation,
  square root, the contents of freshly allocated slots) are fields of `FEngine`.  Nothing is
  assumed about them: the general theorems quantify over the engine, and the evaluations at a
  concrete input name the engine they use.
* The process-wide console variables are passed as a record, `FConsoleVariables`.
* A loop is a fold of its body over the indices it visits; an assignment `A[i] = v` is `List.set`.
-/

namespace FCollisionStructureManager

/-! ## Scalars -/

/-- Idealised single-precision number: a rational, or NaN. -/
inductive float where
  | nan : float
  | num (q : ℚ) : float
deriving DecidableEq

namespace float

def IsNaN : float → Bool
  | nan => true
  | num _ => false

def add : float → float → float
  | num a, num b => num (a + b)
  | _, _ => nan

def sub : float → float → float
  | num a, num b => num (a - b)
  | _, _ => nan

def mul : float → float → float
  | num a, num b => num (a * b)
  | _, _ => nan

/-- Division; a division by zero has no finite value and is mapped to NaN. -/
def div : float → float → float
  | num a, num b => if b = 0 then nan else num (a / b)
  | _, _ => nan

/-- The C++ operator `<`. -/
def lt : float → float → Bool
  | num a, num b => decide (a < b)
  | _, _ => false

/-- The C++ operator `>`. -/
def gt (a b : float) : Bool := lt b a

/-- The C++ operator `<=`. -/
def le : float → float → Bool
  | num a, num b => decide (a ≤ b)
  | _, _ => false

/-- Conversion `float(n)` of an integer. -/
def ofInt (n : Int) : float := num n

end float

/-- Modelled from the spec: `FMath::Abs` on `float` (declared in the engine math headers). -/
def FMath.Abs : float → float
  | float.num a => float.num |a|
  | float.nan => float.nan

/-- Modelled from the spec: `FMath::Min`, `(A <= B) ? A : B` (declared in the engine math
headers). -/
def FMath.Min (A B : float) : float := if float.le A B then A else B

/-- Modelled from the spec: `FMath::Max`, `(A >= B) ? A : B` (declared in the engine math
headers). -/
def FMath.Max (A B : float) : float := if float.le B A then A else B

/-- Modelled from the spec: the near-zero epsilon `KINDA_SMALL_NUMBER`, `1.e-4f` in the engine
headers. -/
def KINDA_SMALL_NUMBER : float := float.num (1 / 10000)

/-! ## 32-bit integers -/

/-- Wrap an integer into the range of `int32`. -/
def wrapInt32 (x : Int) : Int := (x + 2147483648) % 4294967296 - 2147483648

/-- The product of two `int32` values, as `int32`. -/
def mulInt32 (a b : Int) : Int := wrapInt32 (a * b)

/-- The conversion `static_cast<int32>(x)`: truncation toward zero.  A NaN or out-of-range operand
has no defined result in C++; it is mapped to the x86 "integer indefinite" value `-2^31`. -/
def castInt32 : float → Int
  | float.nan => -2147483648
  | float.num q =>
    let t := Int.tdiv q.num (q.den : Int)
    if -2147483648 ≤ t ∧ t ≤ 2147483647 then t else -2147483648

/-! ## Vectors and boxes -/

/-- Three floats: `FVector`, and `Chaos::TVector<float, 3>` which derives from it. -/
structure FVector where
  X : float
  Y : float
  Z : float
deriving DecidableEq

/-- `Chaos::TVector<float, 3>`. -/
abbrev TVector := FVector

/-- `Chaos::TVector<int32, 3>`. -/
structure TVectorInt32 where
  X : Int
  Y : Int
  Z : Int
deriving DecidableEq

namespace FVector

/-- The constructor `FVector(float InF)`: all three components equal. -/
def splat (f : float) : FVector := ⟨f, f, f⟩

def ZeroVector : FVector := splat (float.num 0)

def add (a b : FVector) : FVector := ⟨a.X.add b.X, a.Y.add b.Y, a.Z.add b.Z⟩

def sub (a b : FVector) : FVector := ⟨a.X.sub b.X, a.Y.sub b.Y, a.Z.sub b.Z⟩

/-- Scaling by a float, `V * Scale`. -/
def scale (a : FVector) (s : float) : FVector := ⟨a.X.mul s, a.Y.mul s, a.Z.mul s⟩

/-- Modelled from the spec: `ContainsNaN`, true when a component is NaN. -/
def ContainsNaN (a : FVector) : Bool := a.X.IsNaN || a.Y.IsNaN || a.Z.IsNaN

/-- Modelled from the spec: `FVector::GetAbsMin`, the smallest absolute value of the components. -/
def GetAbsMin (a : FVector) : float :=
  FMath.Min (FMath.Min (FMath.Abs a.X) (FMath.Abs a.Y)) (FMath.Abs a.Z)

end FVector

/-- The engine box `FBox`: two corners and a validity flag. -/
structure FBox where
  Min : FVector
  Max : FVector
  IsValid : Bool
deriving DecidableEq

namespace FBox

/-- The constructor `FBox(ForceInitToZero)`. -/
def ForceInitToZero : FBox := ⟨FVector.ZeroVector, FVector.ZeroVector, false⟩

/-- Modelled from the spec: `FBox::operator+=(const FVector&)`, growing the box to hold a point. -/
def addPoint (B : FBox) (P : FVector) : FBox :=
  if B.IsValid then
    ⟨⟨FMath.Min B.Min.X P.X, FMath.Min B.Min.Y P.Y, FMath.Min B.Min.Z P.Z⟩,
     ⟨FMath.Max B.Max.X P.X, FMath.Max B.Max.Y P.Y, FMath.Max B.Max.Z P.Z⟩, true⟩
  else ⟨P, P, true⟩

/-- Modelled from the spec: `FBox::GetExtent`, the half-extents `0.5f * (Max - Min)`. -/
def GetExtent (B : FBox) : FVector := (B.Max.sub B.Min).scale (float.num (1 / 2))

/-- Modelled from the spec: `FBox::GetCenter`, `(Min + Max) * 0.5f`. -/
def GetCenter (B : FBox) : FVector := (B.Min.add B.Max).scale (float.num (1 / 2))

end FBox

/-! ## Containers -/

/-- The positions of a `Chaos::TParticles<float, 3>`. -/
abbrev TParticles := List TVector

/-- `TParticles::Size`. -/
def TParticles.Size (P : TParticles) : Nat := P.length

/-- `TParticles::X(Idx)`.  An index outside the container has no defined value in C++; the model
returns the zero vector there. -/
def TParticles.X (P : TParticles) (Idx : Int) : TVector :=
  if 0 ≤ Idx then P.getD Idx.toNat FVector.ZeroVector else FVector.ZeroVector

/-- A `Chaos::TTriangleMesh<float>`: its triangles, as index triples. -/
structure TTriangleMesh where
  MElements : List TVectorInt32
deriving DecidableEq

/-- `TSet<int32>::Add`: a set keeps one copy of each element, in order of first insertion. -/
def TSetAdd (S : List Int) (i : Int) : List Int := if i ∈ S then S else S ++ [i]

namespace TTriangleMesh

def GetNumElements (M : TTriangleMesh) : Nat := M.MElements.length

/-- Modelled from the spec: `GetVertexSet`, the set of vertex indices the triangles refer to. -/
def GetVertexSet (M : TTriangleMesh) : List Int :=
  M.MElements.foldl (fun S e => TSetAdd (TSetAdd (TSetAdd S e.X) e.Y) e.Z) []

end TTriangleMesh

/-- The simplicial `FSimplicial` (a `TBVHParticles<float, 3>`): its particle positions.  The
acceleration structure is derived from the positions and is not part of the model. -/
structure FSimplicial where
  X : List TVector
deriving DecidableEq

/-- What `NewSimplicial` asks of the `const Chaos::FImplicitObject*` it is given: three virtual
queries. -/
structure FImplicitQuery where
  HasBoundingBox : Bool
  -- the value of `BoundingBox().Extents().Size()`
  BoundingBoxExtentsSize : float
  SignedDistance : TVector → float

/-- The console variables, read at call time. -/
structure FConsoleVariables where
  bCollisionParticlesUseImplicitCulling : Int
  CollisionParticlesSpatialDivision : Int
  CollisionParticlesMin : Int
  CollisionParticlesMax : Int

/-- The initial values of the console variables. -/
def FConsoleVariables.initial : FConsoleVariables := ⟨0, 10, 10, 2000⟩

/-- The engine `Chaos::FErrorReporter`, as far as the manager reads it. -/
structure FErrorReporter where
  bUnhandledErrors : Bool
deriving DecidableEq

namespace FErrorReporter

def ContainsUnhandledError (R : FErrorReporter) : Bool := R.bUnhandledErrors

end FErrorReporter

/-- `Chaos::TUniformGrid<float, 3>`, as constructed at line 333. -/
structure TUniformGrid where
  MinCorner : FVector
  MaxCorner : FVector
  Counts : TVectorInt32
  GhostCells : Int
deriving DecidableEq

/-- Engine routines the manager calls whose code is outside this translation unit.  Nothing is
assumed about them. -/
structure FEngine where
  -- square root, used by `FVector::Size`
  Sqrt : float → float
  -- `Chaos::CleanCollisionParticles(Vertices, SnapDistance)`
  CleanCollisionParticles : List TVector → float → List TVector
  -- `Chaos::CleanCollisionParticles(TriMesh, Vertices, Fraction)`
  CleanCollisionParticlesMesh : TTriangleMesh → List TVector → float → List TVector
  -- what slot `k` of a `TArray` holds after `AddUninitialized` and before it is written
  UninitializedElement : Nat → TVector
  -- what particle `k` holds after `AddParticles` and before it is written
  UninitializedParticle : Nat → TVector
  -- the rasterisation done by the `TLevelSet` constructor: the distance samples, and the
  -- reporter as the constructor leaves it
  LevelSetRasterize : FErrorReporter → TUniformGrid → TParticles → TTriangleMesh →
    List float × FErrorReporter
  -- `TLevelSet::Shrink(Value)` on the distance samples
  LevelSetShrink : TUniformGrid → List float → float → List float

/-- `FVector::Size`, the Euclidean length. -/
def FVector.Size (E : FEngine) (a : FVector) : float :=
  E.Sqrt (((a.X.mul a.X).add (a.Y.mul a.Y)).add (a.Z.mul a.Z))

/-! ## `TArray` and particle operations used by `NewSimplicial` -/

/-- `TArray::AddUninitialized(Count)`: `Count` slots are appended; their contents are whatever the
memory holds. -/
def AddUninitialized (E : FEngine) (A : List TVector) (Count : Nat) : List TVector :=
  A ++ (List.range Count).map (fun k => E.UninitializedElement (A.length + k))

/-- `TArray::SetNum(NewNum)` with `NewNum` at most the current size: the array is cut. -/
def SetNum (A : List TVector) (NewNum : Nat) : List TVector := A.take NewNum

/-- `TParticles::AddParticles(Num)`: `Num` particles are appended and not written.  A negative
`Num` is outside the domain of the model (nothing is appended then); the theorems below that
reach this call do so with `Num ≥ 0`. -/
def AddParticles (E : FEngine) (S : FSimplicial) (Num : Int) : FSimplicial :=
  ⟨S.X ++ (List.range Num.toNat).map (fun k => E.UninitializedParticle (S.X.length + k))⟩

/-- `TParticles::Resize(Num)`: the container is cut or grown to `Num` particles. -/
def Resize (E : FEngine) (S : FSimplicial) (Num : Nat) : FSimplicial :=
  if Num ≤ S.X.length then ⟨S.X.take Num⟩ else AddParticles E S ((Num : Int) - S.X.length)

/-! ## `NewSimplicial`, implicit-guided variant (lines 33-125) -/

/-- The locals of `NewSimplicial` that the pruning step reads. -/
structure FLocals where
  Extent : float
  LSVCounter : Nat
  OutsideVertices : List TVector
  bFullCopy : Bool

/-- Line 50: the effective cap `LocalCollisionParticlesMax`. -/
def LocalCollisionParticlesMax (CVars : FConsoleVariables) (CollisionParticlesMaxInput : Int) :
    Int :=
  if CollisionParticlesMaxInput > 0 then min CollisionParticlesMaxInput CVars.CollisionParticlesMax
  else CVars.CollisionParticlesMax

/-- Lines 63-68: one turn of the culling loop, on the array and `LSVCounter`. -/
def CullStep (Vertices : TParticles) (Implicit : FImplicitQuery) (Threshold : float)
    (st : List TVector × Nat) (Idx : Int) : List TVector × Nat :=
  let SamplePoint := Vertices.X Idx
  if (Implicit.SignedDistance SamplePoint).gt Threshold then
    (st.1.set st.2 SamplePoint, st.2 + 1)
  else st

/-- Line 53: the extent used by the culling pass. -/
def CullExtent (Implicit : FImplicitQuery) : float :=
  if Implicit.HasBoundingBox then Implicit.BoundingBoxExtentsSize else float.num 1

/-- Line 55: the distance `Threshold`, one hundredth of the extent. -/
def CullThreshold (Implicit : FImplicitQuery) : float :=
  (CullExtent Implicit).mul (float.num (1 / 100))

/-- Lines 51-74: the culling pass. -/
def ImplicitCulling (E : FEngine) (CVars : FConsoleVariables) (Vertices : TParticles)
    (Indices : List Int) (Implicit : Option FImplicitQuery) (LocalMax : Int) (L : FLocals) :
    FLocals :=
  match Implicit with
  | none => L
  | some I =>
    if CVars.bCollisionParticlesUseImplicitCulling ≠ 0 ∧ (Indices.length : Int) > LocalMax then
      let Extent := CullExtent I
      let Threshold := CullThreshold I
      let A := AddUninitialized E L.OutsideVertices Indices.length
      let r := Indices.foldl (CullStep Vertices I Threshold) (A, L.LSVCounter)
      let OutsideVertices := SetNum r.1 r.2
      { Extent := Extent
        LSVCounter := r.2
        OutsideVertices := OutsideVertices
        bFullCopy := if (OutsideVertices.length : Int) > LocalMax then false else L.bFullCopy }
    else L

/-- Lines 83-84: one turn of the full-copy loop, on `Bounds` and the array. -/
def FullCopyStep (Vertices : TParticles) (IndicesArray : List Int) (st : FBox × List TVector)
    (Idx : Nat) : FBox × List TVector :=
  let P := Vertices.X (IndicesArray.getD Idx 0)
  (st.1.addPoint P, st.2.set Idx P)

/-- Lines 76-87: the full-copy pass. -/
def FullCopy (E : FEngine) (Vertices : TParticles) (Indices : List Int) (L : FLocals) : FLocals :=
  if L.bFullCopy then
    let IndicesArray := Indices
    let A := AddUninitialized E L.OutsideVertices Indices.length
    let r := (List.range IndicesArray.length).foldl (FullCopyStep Vertices IndicesArray)
      (FBox.ForceInitToZero, A)
    { L with OutsideVertices := r.2, Extent := FVector.Size E r.1.GetExtent }
  else L

/-- Lines 43-87: the locals as they stand when the array is handed to spatial pruning. -/
def GatherOutsideVertices (E : FEngine) (CVars : FConsoleVariables) (Vertices : TParticles)
    (TriMesh : TTriangleMesh) (Implicit : Option FImplicitQuery)
    (CollisionParticlesMaxInput : Int) : FLocals :=
  let Indices := TriMesh.GetVertexSet
  let LocalMax := LocalCollisionParticlesMax CVars CollisionParticlesMaxInput
  FullCopy E Vertices Indices
    (ImplicitCulling E CVars Vertices Indices Implicit LocalMax
      { Extent := float.num 0, LSVCounter := 0, OutsideVertices := [], bFullCopy := true })

/-- Lines 103-107 (and 150-154): one turn of the loop that copies the points without NaN. -/
def CopyStep (Points : List TVector) (st : FSimplicial × Nat) (i : Nat) : FSimplicial × Nat :=
  let P := Points.getD i FVector.ZeroVector
  if !P.ContainsNaN then (⟨st.1.X.set i P⟩, st.2 + 1) else st

/-- Lines 97-110: the copy of the first `NumParticles` points into the simplicial. -/
def CopyParticles (E : FEngine) (Simplicial : FSimplicial) (OutsideVertices : List TVector)
    (NumParticles : Int) : FSimplicial :=
  if NumParticles ≠ 0 then
    let S := AddParticles E Simplicial NumParticles
    let r := (List.range NumParticles.toNat).foldl (CopyStep OutsideVertices) (S, 0)
    Resize E r.1 r.2
  else Simplicial

/-- Lines 112-116 (and 159-163): a simplicial without particles gets one particle at the origin. -/
def OriginFallback (E : FEngine) (Simplicial : FSimplicial) : FSimplicial :=
  if Simplicial.X.length = 0 then
    ⟨(AddParticles E Simplicial 1).X.set 0 (FVector.splat (float.num 0))⟩
  else Simplicial

/-- Line 95: `NumParticles`. -/
def NumParticles (OutsideVertices : List TVector) (LocalMax : Int) : Int :=
  if (OutsideVertices.length : Int) > LocalMax then LocalMax else OutsideVertices.length

/-- Line 94: the array returned by spatial pruning. -/
def PrunedVertices (E : FEngine) (CVars : FConsoleVariables) (L : FLocals) : List TVector :=
  let SnapThreshold := L.Extent.div (float.ofInt CVars.CollisionParticlesSpatialDivision)
  E.CleanCollisionParticles L.OutsideVertices SnapThreshold

/-- Lines 33-125: `NewSimplicial(Vertices, TriMesh, Implicit, CollisionParticlesMaxInput)`. -/
def NewSimplicial (E : FEngine) (CVars : FConsoleVariables) (Vertices : TParticles)
    (TriMesh : TTriangleMesh) (Implicit : Option FImplicitQuery)
    (CollisionParticlesMaxInput : Int) : FSimplicial :=
  let Simplicial : FSimplicial := ⟨[]⟩
  if Implicit.isSome || Vertices.Size != 0 then
    let LocalMax := LocalCollisionParticlesMax CVars CollisionParticlesMaxInput
    let L := GatherOutsideVertices E CVars Vertices TriMesh Implicit CollisionParticlesMaxInput
    let OutsideVertices := PrunedVertices E CVars L
    OriginFallback E
      (CopyParticles E Simplicial OutsideVertices (NumParticles OutsideVertices LocalMax))
  else Simplicial

/-! ## `NewSimplicial`, fractional variant (lines 127-170) -/

/-- Lines 144-157: the copy of the pruned points, from the last index down to the first. -/
def CopyParticlesDescending (E : FEngine) (Simplicial : FSimplicial) (Result : List TVector) :
    FSimplicial :=
  if Result.length ≠ 0 then
    let S := AddParticles E Simplicial Result.length
    let r := (List.range Result.length).reverse.foldl (CopyStep Result) (S, 0)
    Resize E r.1 r.2
  else Simplicial

/-- Lines 127-170: `NewSimplicial(AllParticles, BoneMap, CollisionType, TriMesh,
CollisionParticlesFraction)`.  `BoneMap` and `CollisionType` are not read by the body
(`bEnableCollisionParticles || true`). -/
def NewSimplicialFraction (E : FEngine) (AllParticles : TParticles) (TriMesh : TTriangleMesh)
    (CollisionParticlesFraction : float) : FSimplicial :=
  let Simplicial : FSimplicial := ⟨[]⟩
  let Result := E.CleanCollisionParticlesMesh TriMesh AllParticles CollisionParticlesFraction
  OriginFallback E (CopyParticlesDescending E Simplicial Result)

/-- The culled survivors as the specification words them: the vertices named by `l` whose signed
distance from the implicit volume exceeds the threshold, in the order of `l`.  The culling loop
itself is `CullStep`; `cull_foldl_spec` relates the two. -/
def Survivors (Vertices : TParticles) (I : FImplicitQuery) (Threshold : float) (l : List Int) :
    List TVector :=
  (l.map (TParticles.X Vertices)).filter (fun p => (I.SignedDistance p).gt Threshold)


/-! ## Implicit volumes (lines 172-343) -/

/-- Modelled from the spec: the selector `ECollisionTypeEnum`, declared in the header of the
manager.  The body names one enumerator; every other one is `Chaos_Other`. -/
inductive ECollisionTypeEnum where
  | Chaos_Surface_Volumetric : ECollisionTypeEnum
  | Chaos_Other (raw : Nat) : ECollisionTypeEnum
deriving DecidableEq

/-- Modelled from the spec: the selector `EImplicitTypeEnum`, declared in the header of the
manager.  The body names three enumerators; every other one is `Chaos_Implicit_Other`. -/
inductive EImplicitTypeEnum where
  | Chaos_Implicit_Box : EImplicitTypeEnum
  | Chaos_Implicit_Sphere : EImplicitTypeEnum
  | Chaos_Implicit_LevelSet : EImplicitTypeEnum
  | Chaos_Implicit_Other (raw : Nat) : EImplicitTypeEnum
deriving DecidableEq

/-- Modelled from the spec: `Chaos::ImplicitObjectType`, the category of a shape. -/
inductive ImplicitObjectType where
  | Box : ImplicitObjectType
  | Sphere : ImplicitObjectType
  | LevelSet : ImplicitObjectType
  | Other (raw : Nat) : ImplicitObjectType
deriving DecidableEq

/-- The geometric data of the three shapes the manager constructs. -/
inductive FGeometry where
  | Box (Min Max : FVector) : FGeometry
  | Sphere (Center : TVector) (Radius : float) : FGeometry
  | LevelSet (Grid : TUniformGrid) (Phi : List float) : FGeometry
deriving DecidableEq

/-- Modelled from the spec: `Chaos::FImplicitObject` (`FImplicit`), a shape with its type, its
reported collision category and the two flags. -/
structure FImplicitObject where
  -- the member `Type`, read by `GetType`
  ImplicitType : ImplicitObjectType
  -- written by `SetCollisionType`
  CollisionType : ImplicitObjectType
  bDoCollide : Bool
  bIsConvex : Bool
  Geometry : FGeometry
deriving DecidableEq

namespace FImplicitObject

def GetType (I : FImplicitObject) : ImplicitObjectType := I.ImplicitType

def SetCollisionType (I : FImplicitObject) (T : ImplicitObjectType) : FImplicitObject :=
  { I with CollisionType := T }

def SetDoCollide (I : FImplicitObject) (b : Bool) : FImplicitObject := { I with bDoCollide := b }

def SetConvex (I : FImplicitObject) (b : Bool) : FImplicitObject := { I with bIsConvex := b }

end FImplicitObject

/-- Modelled from the spec: the constructor `Chaos::TBox<float, 3>(Min, Max)`; a new box is
convex and collides. -/
def TBox (Min Max : FVector) : FImplicitObject :=
  ⟨ImplicitObjectType.Box, ImplicitObjectType.Box, true, true, FGeometry.Box Min Max⟩

/-- Modelled from the spec: the constructor `Chaos::TSphere<float, 3>(Center, Radius)`; a new
sphere is convex and collides. -/
def TSphere (Center : TVector) (Radius : float) : FImplicitObject :=
  ⟨ImplicitObjectType.Sphere, ImplicitObjectType.Sphere, true, true,
    FGeometry.Sphere Center Radius⟩

/-- Modelled from the spec: the object built by the constructor `Chaos::TLevelSet<float, 3>` from
the samples it rasterised; a new level set collides and is not convex. -/
def TLevelSet (Grid : TUniformGrid) (Phi : List float) : FImplicitObject :=
  ⟨ImplicitObjectType.LevelSet, ImplicitObjectType.LevelSet, true, false,
    FGeometry.LevelSet Grid Phi⟩

/-- `TLevelSet::Shrink(Value)`. -/
def Shrink (E : FEngine) (LevelSet : FImplicitObject) (Value : float) : FImplicitObject :=
  match LevelSet.Geometry with
  | FGeometry.LevelSet Grid Phi =>
    { LevelSet with Geometry := FGeometry.LevelSet Grid (E.LevelSetShrink Grid Phi Value) }
  | _ => LevelSet

/-- Lines 172-185: `UpdateImplicitFlags(Implicit, CollisionType)`, returning the shape as the
call leaves it.  On a null pointer `ensure` fails and nothing is done. -/
def UpdateImplicitFlags (Implicit : Option FImplicitObject) (CollisionType : ECollisionTypeEnum) :
    Option FImplicitObject :=
  match Implicit with
  | none => none
  | some I =>
    let I1 := I.SetCollisionType
      (if CollisionType = ECollisionTypeEnum.Chaos_Surface_Volumetric
        then ImplicitObjectType.LevelSet else I.GetType)
    if CollisionType = ECollisionTypeEnum.Chaos_Surface_Volumetric ∧
        I1.GetType = ImplicitObjectType.LevelSet then
      some ((I1.SetDoCollide false).SetConvex false)
    else some I1

/-- Lines 216-227: `NewImplicitBox`. -/
def NewImplicitBox (CollisionBounds : FBox) (CollisionObjectReduction : float)
    (CollisionType : ECollisionTypeEnum) : Option FImplicitObject :=
  let HalfExtents := CollisionBounds.GetExtent.scale
    ((float.num 1).sub (CollisionObjectReduction.div (float.num 100)))
  let Center := CollisionBounds.GetCenter
  let Implicit := TBox (Center.sub HalfExtents) (Center.add HalfExtents)
  UpdateImplicitFlags (some Implicit) CollisionType

/-- Lines 229-238: `NewImplicitSphere`. -/
def NewImplicitSphere (Radius : float) (CollisionObjectReduction : float)
    (CollisionType : ECollisionTypeEnum) : Option FImplicitObject :=
  let Implicit := TSphere (FVector.splat (float.num 0))
    (Radius.mul ((float.num 1).sub (CollisionObjectReduction.div (float.num 100))))
  UpdateImplicitFlags (some Implicit) CollisionType

/-- Lines 301-320: the voxel counts before they are capped. -/
def UncappedCounts (Extents : FVector) (MinRes : Int) : TVectorInt32 :=
  if Extents.X.lt Extents.Y && Extents.X.lt Extents.Z then
    ⟨MinRes,
     mulInt32 MinRes (castInt32 (Extents.Y.div Extents.X)),
     mulInt32 MinRes (castInt32 (Extents.Z.div Extents.X))⟩
  else if Extents.Y.lt Extents.Z then
    ⟨mulInt32 MinRes (castInt32 (Extents.X.div Extents.Y)),
     MinRes,
     mulInt32 MinRes (castInt32 (Extents.Z.div Extents.Y))⟩
  else
    ⟨mulInt32 MinRes (castInt32 (Extents.X.div Extents.Z)),
     mulInt32 MinRes (castInt32 (Extents.Y.div Extents.Z)),
     MinRes⟩

/-- Lines 301-332: the voxel counts `Counts` handed to the grid. -/
def LevelsetCounts (Extents : FVector) (MinRes MaxRes : Int) : TVectorInt32 :=
  let C0 := UncappedCounts Extents MinRes
  let C1 : TVectorInt32 := if C0.X > MaxRes then { C0 with X := MaxRes } else C0
  let C2 : TVectorInt32 := if C1.Y > MaxRes then { C1 with Y := MaxRes } else C1
  if C2.Z > MaxRes then { C2 with Z := MaxRes } else C2

/-- Lines 286-343: `NewLevelset`.  The reporter is a by-value copy, so `HandleLatestError` at
line 337 does not reach the caller and is left out. -/
def NewLevelset (E : FEngine) (ErrorReporter : FErrorReporter) (MeshParticles : TParticles)
    (TriMesh : TTriangleMesh) (CollisionBounds : FBox) (MinRes MaxRes : Int)
    (CollisionType : ECollisionTypeEnum) : Option FImplicitObject :=
  if TriMesh.GetNumElements = 0 then none
  else
    let Counts := LevelsetCounts CollisionBounds.GetExtent MinRes MaxRes
    let Grid : TUniformGrid := ⟨CollisionBounds.Min, CollisionBounds.Max, Counts, 1⟩
    let r := E.LevelSetRasterize ErrorReporter Grid MeshParticles TriMesh
    let Implicit := TLevelSet Grid r.1
    if r.2.ContainsUnhandledError then none
    else UpdateImplicitFlags (some Implicit) CollisionType

/-- Lines 240-284: `NewImplicitLevelset`.  The reporter is a by-value copy, so the log of lines
259-271 and the error report of line 281 do not reach the caller and are left out. -/
def NewImplicitLevelset (E : FEngine) (ErrorReporter : FErrorReporter)
    (MeshParticles : TParticles) (TriMesh : TTriangleMesh) (CollisionBounds : FBox)
    (MinRes MaxRes : Int) (CollisionObjectReduction : float)
    (CollisionType : ECollisionTypeEnum) : Option FImplicitObject :=
  let HalfExtents := CollisionBounds.GetExtent
  if HalfExtents.GetAbsMin.lt KINDA_SMALL_NUMBER then none
  else
    match NewLevelset E ErrorReporter MeshParticles TriMesh CollisionBounds MinRes MaxRes
        CollisionType with
    | some LevelSet =>
      let HalfExtents1 := HalfExtents.scale (CollisionObjectReduction.div (float.num 100))
      let MinExtent := FMath.Min HalfExtents1.X (FMath.Min HalfExtents1.Y HalfExtents1.Z)
      if MinExtent.gt (float.num 0) then some (Shrink E LevelSet MinExtent) else some LevelSet
    | none => none

/-- Lines 187-214: `NewImplicit`. -/
def NewImplicit (E : FEngine) (ErrorReporter : FErrorReporter) (MeshParticles : TParticles)
    (TriMesh : TTriangleMesh) (CollisionBounds : FBox) (Radius : float) (MinRes MaxRes : Int)
    (CollisionObjectReduction : float) (CollisionType : ECollisionTypeEnum)
    (ImplicitType : EImplicitTypeEnum) : Option FImplicitObject :=
  if ImplicitType = EImplicitTypeEnum.Chaos_Implicit_Box then
    NewImplicitBox CollisionBounds CollisionObjectReduction CollisionType
  else if ImplicitType = EImplicitTypeEnum.Chaos_Implicit_Sphere then
    NewImplicitSphere Radius CollisionObjectReduction CollisionType
  else if ImplicitType = EImplicitTypeEnum.Chaos_Implicit_LevelSet then
    NewImplicitLevelset E ErrorReporter MeshParticles TriMesh CollisionBounds MinRes MaxRes
      CollisionObjectReduction CollisionType
  else none

/-! ## Concrete inputs used by the evaluations below -/

/-- An engine that prunes nothing, rasterises without error, and whose fresh slots hold the
vectors given by `g`. -/
def PassThroughEngine (g : Nat → TVector) : FEngine where
  Sqrt := fun x => x
  CleanCollisionParticles := fun V _ => V
  CleanCollisionParticlesMesh := fun _ V _ => V
  UninitializedElement := g
  UninitializedParticle := g
  LevelSetRasterize := fun R _ _ _ => ([], R)
  LevelSetShrink := fun _ Phi _ => Phi

/-- A vector with rational components. -/
def vec (x y z : ℚ) : FVector := ⟨float.num x, float.num y, float.num z⟩

/-- A mesh with the single triangle `(0, 1, 2)`. -/
def OneTriangle : TTriangleMesh := ⟨[⟨0, 1, 2⟩]⟩

/-- Three vertices on the X axis. -/
def AxisVertices : TParticles := [vec 0 0 0, vec 1 0 0, vec 2 0 0]

/-- A vertex whose X component is NaN, followed by two vertices without NaN. -/
def NaNFirstVertices : TParticles :=
  [⟨float.nan, float.num 0, float.num 0⟩, vec 1 0 0, vec 2 0 0]

/-- An implicit volume without bounding box whose signed distance is the X coordinate: the
half-space `x ≤ 0`. -/
def HalfSpace : FImplicitQuery := ⟨false, float.num 0, fun p => p.X⟩

/-- The console variables with implicit culling switched on. -/
def CullingOn : FConsoleVariables := ⟨1, 10, 10, 2000⟩
/-! ## Lemmas on the loops of `NewSimplicial` -/

theorem take_set_succ (A : List TVector) (k : Nat) (p : TVector) (h : k < A.length) :
    (A.set k p).take (k + 1) = A.take k ++ [p] := by
  induction A generalizing k with
  | nil => simp at h
  | cons a A ih =>
    cases k with
    | zero => simp
    | succ k =>
      have h' : k < A.length := by simpa using h
      simp [List.set, List.take, ih k h']

theorem cull_foldl_spec (Vertices : TParticles) (I : FImplicitQuery) (T : float) (l : List Int) :
    ∀ (A : List TVector) (k : Nat), k + l.length ≤ A.length →
      (l.foldl (CullStep Vertices I T) (A, k)).2 = k + (Survivors Vertices I T l).length ∧
      (l.foldl (CullStep Vertices I T) (A, k)).1.take
          (l.foldl (CullStep Vertices I T) (A, k)).2 = A.take k ++ Survivors Vertices I T l ∧
      (l.foldl (CullStep Vertices I T) (A, k)).1.length = A.length := by
  induction l with
  | nil => intro A k _; simp [Survivors]
  | cons i l ih =>
    intro A k h
    simp only [List.length_cons] at h
    simp only [List.foldl_cons]
    by_cases hs : (I.SignedDistance (TParticles.X Vertices i)).gt T = true
    · have hk : k < A.length := by omega
      have hstep : CullStep Vertices I T (A, k) i = (A.set k (TParticles.X Vertices i), k + 1) := by
        simp [CullStep, hs]
      rw [hstep]
      obtain ⟨h1, h2, h3⟩ := ih (A.set k (TParticles.X Vertices i)) (k + 1)
        (by simp only [List.length_set]; omega)
      have hsurv : Survivors Vertices I T (i :: l)
          = TParticles.X Vertices i :: Survivors Vertices I T l := by
        simp [Survivors, hs]
      refine ⟨?_, ?_, ?_⟩
      · rw [h1, hsurv]; simp only [List.length_cons]; omega
      · rw [h2, hsurv, take_set_succ A k _ hk]; simp
      · rw [h3]; simp
    · have hstep : CullStep Vertices I T (A, k) i = (A, k) := by
        simp [CullStep, hs]
      rw [hstep]
      have hsurv : Survivors Vertices I T (i :: l) = Survivors Vertices I T l := by
        simp [Survivors, hs]
      rw [hsurv]
      exact ih A k (by omega)

theorem copy_foldl_spec (P : List TVector) (l : List Nat) :
    ∀ (S : FSimplicial) (c : Nat),
      (l.foldl (CopyStep P) (S, c)).1.X.length = S.X.length ∧
      (l.foldl (CopyStep P) (S, c)).2 ≤ c + l.length := by
  induction l with
  | nil => intro S c; simp
  | cons i l ih =>
    intro S c
    simp only [List.foldl_cons, List.length_cons]
    by_cases hn : (P.getD i FVector.ZeroVector).ContainsNaN = true
    · have hstep : CopyStep P (S, c) i = (S, c) := by
        simp only [CopyStep, hn, Bool.not_true, Bool.false_eq_true, if_false]
      rw [hstep]
      obtain ⟨h1, h2⟩ := ih S c
      exact ⟨h1, by omega⟩
    · have hstep : CopyStep P (S, c) i
          = (⟨S.X.set i (P.getD i FVector.ZeroVector)⟩, c + 1) := by
        have hn' : (P.getD i FVector.ZeroVector).ContainsNaN = false := by
          simpa using hn
        simp only [CopyStep, hn', Bool.not_false, if_true]
      rw [hstep]
      obtain ⟨h1, h2⟩ := ih ⟨S.X.set i (P.getD i FVector.ZeroVector)⟩ (c + 1)
      refine ⟨?_, by omega⟩
      rw [h1]; simp

theorem AddParticles_length (E : FEngine) (S : FSimplicial) (Num : Int) :
    (AddParticles E S Num).X.length = S.X.length + Num.toNat := by
  simp [AddParticles]

theorem CopyParticles_length_le (E : FEngine) (OutsideVertices : List TVector) (Num : Int) :
    (CopyParticles E ⟨[]⟩ OutsideVertices Num).X.length ≤ Num.toNat := by
  simp only [CopyParticles]
  split_ifs with h
  · obtain ⟨h1, h2⟩ := copy_foldl_spec OutsideVertices (List.range Num.toNat)
      (AddParticles E ⟨[]⟩ Num) 0
    rw [AddParticles_length] at h1
    simp only [List.length_nil, zero_add, List.length_range] at h1 h2
    simp only [Resize]
    rw [if_pos (by omega)]
    simp only [List.length_take]
    omega
  · simp

theorem OriginFallback_length (E : FEngine) (S : FSimplicial) :
    (OriginFallback E S).X.length = if S.X.length = 0 then 1 else S.X.length := by
  simp only [OriginFallback]
  split_ifs with h
  · simp [AddParticles, h]
  · rfl

theorem NumParticles_le (OutsideVertices : List TVector) (LocalMax : Int) (h : 0 ≤ LocalMax) :
    ((NumParticles OutsideVertices LocalMax).toNat : Int) ≤ LocalMax := by
  simp only [NumParticles]
  split_ifs with c <;> omega

/-- C1: for a non-empty vertex set and a mesh whose indices name existing vertices, whatever the
implicit volume, the cull flag and the pruning routine, an effective cap of at least 1 bounds the
number of points of the returned simplicial, which is at least 1. -/
theorem NewSimplicial_size (E : FEngine) (CVars : FConsoleVariables) (Vertices : TParticles)
    (TriMesh : TTriangleMesh) (Implicit : Option FImplicitQuery)
    (CollisionParticlesMaxInput : Int)
    (hV : Vertices ≠ [])
    (_hIdx : ∀ i ∈ TriMesh.GetVertexSet, 0 ≤ i ∧ i < (Vertices.Size : Int))
    (hcap : 1 ≤ LocalCollisionParticlesMax CVars CollisionParticlesMaxInput) :
    1 ≤ (NewSimplicial E CVars Vertices TriMesh Implicit CollisionParticlesMaxInput).X.length ∧
    ((NewSimplicial E CVars Vertices TriMesh Implicit CollisionParticlesMaxInput).X.length : Int)
      ≤ LocalCollisionParticlesMax CVars CollisionParticlesMaxInput := by
  have hsize : (Implicit.isSome || Vertices.Size != 0) = true := by
    have : Vertices.length ≠ 0 := by
      intro h; exact hV (List.length_eq_zero.mp h)
    simp [TParticles.Size, this]
  simp only [NewSimplicial, hsize, if_true]
  rw [OriginFallback_length]
  have h1 := CopyParticles_length_le E
    (PrunedVertices E CVars (GatherOutsideVertices E CVars Vertices TriMesh Implicit
      CollisionParticlesMaxInput))
    (NumParticles (PrunedVertices E CVars (GatherOutsideVertices E CVars Vertices TriMesh Implicit
      CollisionParticlesMaxInput)) (LocalCollisionParticlesMax CVars CollisionParticlesMaxInput))
  have h2 := NumParticles_le
    (PrunedVertices E CVars (GatherOutsideVertices E CVars Vertices TriMesh Implicit
      CollisionParticlesMaxInput))
    (LocalCollisionParticlesMax CVars CollisionParticlesMaxInput) (by omega)
  split_ifs with h0
  · exact ⟨le_refl 1, by simpa using hcap⟩
  · constructor
    · omega
    · omega

theorem full_copy_foldl_snd (V : TParticles) (IA : List Int) (B : FBox) (A : List TVector)
    (hA : IA.length ≤ A.length) :
    ∀ k, k ≤ IA.length →
      ((List.range k).foldl (FullCopyStep V IA) (B, A)).2
        = (IA.take k).map (TParticles.X V) ++ A.drop k := by
  intro k
  induction k with
  | zero => intro _; simp
  | succ k ih =>
    intro hk
    have hk1 : k < IA.length := by omega
    have hk2 : k < A.length := by omega
    rw [List.range_succ, List.foldl_append]
    simp only [List.foldl_cons, List.foldl_nil, FullCopyStep]
    rw [ih (by omega)]
    have hlen : ((IA.take k).map (TParticles.X V)).length = k := by
      rw [List.length_map, List.length_take]; omega
    rw [List.set_append_right k _ (le_of_eq hlen)]
    rw [hlen, Nat.sub_self, List.drop_eq_getElem_cons hk2, List.set_cons_zero]
    rw [List.take_succ, List.getElem?_eq_getElem hk1, List.getD_eq_getElem IA 0 hk1]
    rw [Option.toList, List.map_append, List.map_cons, List.map_nil, List.append_assoc]
    rfl

theorem FullCopy_OutsideVertices (E : FEngine) (Vertices : TParticles) (Indices : List Int)
    (L : FLocals) (h : L.bFullCopy = true) :
    (FullCopy E Vertices Indices L).OutsideVertices
      = Indices.map (TParticles.X Vertices)
        ++ (AddUninitialized E L.OutsideVertices Indices.length).drop Indices.length ∧
    (FullCopy E Vertices Indices L).bFullCopy = true := by
  simp only [FullCopy, h, if_true]
  refine ⟨?_, trivial⟩
  rw [full_copy_foldl_snd Vertices Indices _ _ (by simp [AddUninitialized]) Indices.length
    (le_refl _)]
  simp

theorem FullCopy_skip (E : FEngine) (Vertices : TParticles) (Indices : List Int)
    (L : FLocals) (h : L.bFullCopy = false) : FullCopy E Vertices Indices L = L := by
  simp [FullCopy, h]

theorem ImplicitCulling_run (E : FEngine) (CVars : FConsoleVariables) (Vertices : TParticles)
    (Indices : List Int) (I : FImplicitQuery) (LocalMax : Int)
    (hcull : CVars.bCollisionParticlesUseImplicitCulling ≠ 0)
    (hN : (Indices.length : Int) > LocalMax) :
    (ImplicitCulling E CVars Vertices Indices (some I) LocalMax
        { Extent := float.num 0, LSVCounter := 0, OutsideVertices := [], bFullCopy := true }
      ).OutsideVertices = Survivors Vertices I (CullThreshold I) Indices ∧
    (ImplicitCulling E CVars Vertices Indices (some I) LocalMax
        { Extent := float.num 0, LSVCounter := 0, OutsideVertices := [], bFullCopy := true }
      ).bFullCopy
        = decide (((Survivors Vertices I (CullThreshold I) Indices).length : Int) ≤ LocalMax) := by
  obtain ⟨h1, h2, _⟩ := cull_foldl_spec Vertices I (CullThreshold I) Indices
    (AddUninitialized E [] Indices.length) 0 (by simp [AddUninitialized])
  have hOV : SetNum
      (Indices.foldl (CullStep Vertices I (CullThreshold I))
        (AddUninitialized E [] Indices.length, 0)).1
      (Indices.foldl (CullStep Vertices I (CullThreshold I))
        (AddUninitialized E [] Indices.length, 0)).2
      = Survivors Vertices I (CullThreshold I) Indices := by
    simp only [SetNum]
    rw [h2]; simp
  simp only [ImplicitCulling]
  rw [if_pos ⟨hcull, hN⟩]
  simp only [hOV]
  refine ⟨trivial, ?_⟩
  by_cases c : ((Survivors Vertices I (CullThreshold I) Indices).length : Int) > LocalMax
  · simp [c]
  · simp only [c, if_false]
    exact (decide_eq_true (not_lt.mp c)).symm

theorem ImplicitCulling_skip (E : FEngine) (CVars : FConsoleVariables) (Vertices : TParticles)
    (Indices : List Int) (Implicit : Option FImplicitQuery) (LocalMax : Int) (L : FLocals)
    (h : Implicit = none ∨ CVars.bCollisionParticlesUseImplicitCulling = 0 ∨
      (Indices.length : Int) ≤ LocalMax) :
    ImplicitCulling E CVars Vertices Indices Implicit LocalMax L = L := by
  cases Implicit with
  | none => rfl
  | some I =>
    simp only [ImplicitCulling]
    rw [if_neg]
    rintro ⟨h1, h2⟩
    rcases h with h | h | h
    · cases h
    · exact h1 h
    · omega

theorem LocalCollisionParticlesMax_nonneg (CVars : FConsoleVariables) (Input : Int)
    (h : 0 ≤ CVars.CollisionParticlesMax) : 0 ≤ LocalCollisionParticlesMax CVars Input := by
  simp only [LocalCollisionParticlesMax]
  split_ifs <;> omega

theorem GatherOutsideVertices_cull_full (E : FEngine) (CVars : FConsoleVariables)
    (Vertices : TParticles) (TriMesh : TTriangleMesh) (I : FImplicitQuery) (Input : Int)
    (hcull : CVars.bCollisionParticlesUseImplicitCulling ≠ 0)
    (hN : (TriMesh.GetVertexSet.length : Int) > LocalCollisionParticlesMax CVars Input)
    (hS : ((Survivors Vertices I (CullThreshold I) TriMesh.GetVertexSet).length : Int)
      ≤ LocalCollisionParticlesMax CVars Input) :
    (GatherOutsideVertices E CVars Vertices TriMesh (some I) Input).bFullCopy = true ∧
    (GatherOutsideVertices E CVars Vertices TriMesh (some I) Input).OutsideVertices
      = TriMesh.GetVertexSet.map (TParticles.X Vertices)
        ++ (AddUninitialized E (Survivors Vertices I (CullThreshold I) TriMesh.GetVertexSet)
              TriMesh.GetVertexSet.length).drop TriMesh.GetVertexSet.length := by
  obtain ⟨h1, h2⟩ := ImplicitCulling_run E CVars Vertices TriMesh.GetVertexSet I
    (LocalCollisionParticlesMax CVars Input) hcull hN
  have hb : (ImplicitCulling E CVars Vertices TriMesh.GetVertexSet (some I)
      (LocalCollisionParticlesMax CVars Input)
      { Extent := float.num 0, LSVCounter := 0, OutsideVertices := [], bFullCopy := true }
      ).bFullCopy = true := by
    rw [h2]; exact decide_eq_true hS
  obtain ⟨h3, h4⟩ := FullCopy_OutsideVertices E Vertices TriMesh.GetVertexSet _ hb
  simp only [GatherOutsideVertices]
  rw [h1] at h3
  exact ⟨h4, h3⟩

theorem GatherOutsideVertices_no_cull (E : FEngine) (CVars : FConsoleVariables)
    (Vertices : TParticles) (TriMesh : TTriangleMesh) (Implicit : Option FImplicitQuery)
    (Input : Int)
    (h : Implicit = none ∨ CVars.bCollisionParticlesUseImplicitCulling = 0 ∨
      (TriMesh.GetVertexSet.length : Int) ≤ LocalCollisionParticlesMax CVars Input) :
    (GatherOutsideVertices E CVars Vertices TriMesh Implicit Input).bFullCopy = true ∧
    (GatherOutsideVertices E CVars Vertices TriMesh Implicit Input).OutsideVertices
      = TriMesh.GetVertexSet.map (TParticles.X Vertices) := by
  simp only [GatherOutsideVertices]
  rw [ImplicitCulling_skip _ _ _ _ _ _ _ h]
  obtain ⟨h3, h4⟩ := FullCopy_OutsideVertices E Vertices TriMesh.GetVertexSet
    { Extent := float.num 0, LSVCounter := 0, OutsideVertices := [], bFullCopy := true } rfl
  refine ⟨h4, ?_⟩
  rw [h3]
  simp [AddUninitialized]

theorem GetVertexSet_OneTriangle : OneTriangle.GetVertexSet = [0, 1, 2] := by
  decide

theorem Survivors_AxisVertices :
    Survivors AxisVertices HalfSpace (CullThreshold HalfSpace) [0, 1, 2]
      = [vec 1 0 0, vec 2 0 0] := by
  simp [Survivors, AxisVertices, HalfSpace, CullThreshold, CullExtent, TParticles.X, vec,
    float.gt, float.lt, float.mul]
  norm_num

/-- C1, witness: three vertices, one triangle, no implicit volume, caller cap 2. -/
theorem NewSimplicial_size_witness :
    1 ≤ (NewSimplicial (PassThroughEngine (fun _ => vec 0 0 0)) FConsoleVariables.initial
          AxisVertices OneTriangle none 2).X.length ∧
    ((NewSimplicial (PassThroughEngine (fun _ => vec 0 0 0)) FConsoleVariables.initial
          AxisVertices OneTriangle none 2).X.length : Int)
      ≤ LocalCollisionParticlesMax FConsoleVariables.initial 2 :=
  NewSimplicial_size (PassThroughEngine (fun _ => vec 0 0 0)) FConsoleVariables.initial
    AxisVertices OneTriangle none 2 (by simp [AxisVertices])
    (by
      rw [GetVertexSet_OneTriangle]
      intro i hi
      simp only [List.mem_cons, List.mem_singleton, List.not_mem_nil, or_false] at hi
      simp only [AxisVertices, TParticles.Size, List.length_cons, List.length_nil]
      omega)
    (by decide)

/-- C3, amended: with implicit culling enabled, an implicit volume supplied, more unique mesh
vertices than the effective cap and more culling survivors than the effective cap, the builder
does not take the full-copy path: the points handed to spatial pruning are exactly the culled
survivors, the vertices whose signed distance exceeds the threshold, in vertex-set order. -/
theorem NewSimplicial_cull_survivors (E : FEngine) (CVars : FConsoleVariables)
    (Vertices : TParticles) (TriMesh : TTriangleMesh) (I : FImplicitQuery)
    (CollisionParticlesMaxInput : Int)
    (hcull : CVars.bCollisionParticlesUseImplicitCulling ≠ 0)
    (hN : (TriMesh.GetVertexSet.length : Int)
      > LocalCollisionParticlesMax CVars CollisionParticlesMaxInput)
    (hS : ((Survivors Vertices I (CullThreshold I) TriMesh.GetVertexSet).length : Int)
      > LocalCollisionParticlesMax CVars CollisionParticlesMaxInput) :
    (GatherOutsideVertices E CVars Vertices TriMesh (some I)
        CollisionParticlesMaxInput).bFullCopy = false ∧
    (GatherOutsideVertices E CVars Vertices TriMesh (some I)
        CollisionParticlesMaxInput).OutsideVertices
      = Survivors Vertices I (CullThreshold I) TriMesh.GetVertexSet := by
  obtain ⟨h1, h2⟩ := ImplicitCulling_run E CVars Vertices TriMesh.GetVertexSet I
    (LocalCollisionParticlesMax CVars CollisionParticlesMaxInput) hcull hN
  have hb : (ImplicitCulling E CVars Vertices TriMesh.GetVertexSet (some I)
      (LocalCollisionParticlesMax CVars CollisionParticlesMaxInput)
      { Extent := float.num 0, LSVCounter := 0, OutsideVertices := [], bFullCopy := true }
      ).bFullCopy = false := by
    rw [h2]; exact decide_eq_false (not_le.mpr hS)
  simp only [GatherOutsideVertices]
  rw [FullCopy_skip _ _ _ _ hb]
  exact ⟨hb, h1⟩

/-- C3, witness: three vertices on the X axis, the half-space `x ≤ 0`, caller cap 1; two
vertices survive the culling. -/
theorem NewSimplicial_cull_survivors_witness :
    (GatherOutsideVertices (PassThroughEngine (fun _ => vec 0 0 0)) CullingOn AxisVertices
        OneTriangle (some HalfSpace) 1).bFullCopy = false ∧
    (GatherOutsideVertices (PassThroughEngine (fun _ => vec 0 0 0)) CullingOn AxisVertices
        OneTriangle (some HalfSpace) 1).OutsideVertices
      = Survivors AxisVertices HalfSpace (CullThreshold HalfSpace) OneTriangle.GetVertexSet :=
  NewSimplicial_cull_survivors (PassThroughEngine (fun _ => vec 0 0 0)) CullingOn AxisVertices
    OneTriangle HalfSpace 1 (by decide)
    (by rw [GetVertexSet_OneTriangle]; decide)
    (by rw [GetVertexSet_OneTriangle, Survivors_AxisVertices]; decide)

/-- C3, counterexample: culling is enabled, an implicit volume is supplied, the mesh has 3 unique
vertices and the effective cap is 1, 2 vertices survive the culling; the points handed to
spatial pruning are the 2 survivors and not the 3 unique mesh vertices. -/
theorem NewSimplicial_cull_counterexample :
    CullingOn.bCollisionParticlesUseImplicitCulling ≠ 0 ∧
    LocalCollisionParticlesMax CullingOn 1 = 1 ∧
    OneTriangle.GetVertexSet.length = 3 ∧
    (Survivors AxisVertices HalfSpace (CullThreshold HalfSpace)
        OneTriangle.GetVertexSet).length = 2 ∧
    (GatherOutsideVertices (PassThroughEngine (fun _ => vec 0 0 0)) CullingOn AxisVertices
        OneTriangle (some HalfSpace) 1).OutsideVertices = [vec 1 0 0, vec 2 0 0] ∧
    (GatherOutsideVertices (PassThroughEngine (fun _ => vec 0 0 0)) CullingOn AxisVertices
        OneTriangle (some HalfSpace) 1).OutsideVertices
      ≠ OneTriangle.GetVertexSet.map (TParticles.X AxisVertices) := by
  obtain ⟨h1, h2⟩ := ImplicitCulling_run (PassThroughEngine (fun _ => vec 0 0 0)) CullingOn
    AxisVertices OneTriangle.GetVertexSet HalfSpace (LocalCollisionParticlesMax CullingOn 1)
    (by decide) (by rw [GetVertexSet_OneTriangle]; decide)
  rw [GetVertexSet_OneTriangle, Survivors_AxisVertices] at h1 h2
  have hb : (ImplicitCulling (PassThroughEngine (fun _ => vec 0 0 0)) CullingOn AxisVertices
      [0, 1, 2] (some HalfSpace) (LocalCollisionParticlesMax CullingOn 1)
      { Extent := float.num 0, LSVCounter := 0, OutsideVertices := [], bFullCopy := true }
      ).bFullCopy = false := by
    rw [h2]; decide
  have h : (GatherOutsideVertices (PassThroughEngine (fun _ => vec 0 0 0)) CullingOn AxisVertices
      OneTriangle (some HalfSpace) 1).OutsideVertices = [vec 1 0 0, vec 2 0 0] := by
    simp only [GatherOutsideVertices, GetVertexSet_OneTriangle]
    rw [FullCopy_skip _ _ _ _ hb]
    exact h1
  refine ⟨by decide, by decide, by rw [GetVertexSet_OneTriangle]; rfl,
    by rw [GetVertexSet_OneTriangle, Survivors_AxisVertices]; rfl, h, ?_⟩
  rw [h, GetVertexSet_OneTriangle]
  intro hne
  have hlen := congrArg List.length hne
  simp at hlen

/-- C9, evaluation at the failing input: culling enabled, the half-space `x ≤ 0`, three vertices
on the X axis, caller cap 2.  Two vertices survive the culling, which is not more than the cap,
so the full-copy path runs on an array that already holds the two survivors: the array handed to
spatial pruning has 5 entries for 3 unique vertices, and its last two entries were never
written. -/
theorem NewSimplicial_full_copy_after_cull (E : FEngine) :
    OneTriangle.GetVertexSet.length = 3 ∧
    (GatherOutsideVertices E CullingOn AxisVertices OneTriangle (some HalfSpace) 2).bFullCopy
      = true ∧
    (GatherOutsideVertices E CullingOn AxisVertices OneTriangle (some HalfSpace) 2).OutsideVertices
      = [vec 0 0 0, vec 1 0 0, vec 2 0 0, E.UninitializedElement 3, E.UninitializedElement 4] := by
  obtain ⟨h1, h2⟩ := GatherOutsideVertices_cull_full E CullingOn AxisVertices OneTriangle
    HalfSpace 2 (by decide)
    (by rw [GetVertexSet_OneTriangle]; decide)
    (by rw [GetVertexSet_OneTriangle, Survivors_AxisVertices]; decide)
  rw [GetVertexSet_OneTriangle, Survivors_AxisVertices] at h2
  refine ⟨by rw [GetVertexSet_OneTriangle]; rfl, h1, ?_⟩
  rw [h2]
  simp [AddUninitialized, AxisVertices, TParticles.X, List.range_succ]

theorem NewSimplicial_no_vertices_no_implicit (E : FEngine) (CVars : FConsoleVariables)
    (TriMesh : TTriangleMesh) (Input : Int) :
    (NewSimplicial E CVars [] TriMesh none Input).X = [] := by
  simp [NewSimplicial, TParticles.Size]

/-- C2, amended: for an empty vertex set and a mesh without triangles, when an implicit volume
is supplied (the pruning routine returning an empty array for an empty array, and the global
maximum not being negative) the returned simplicial has exactly one point, `(0, 0, 0)`, for
every caller cap; when no implicit volume is supplied the returned simplicial is empty. -/
theorem NewSimplicial_empty_input (E : FEngine) (CVars : FConsoleVariables)
    (Implicit : Option FImplicitQuery) (CollisionParticlesMaxInput : Int)
    (hprune : ∀ t : float, E.CleanCollisionParticles [] t = [])
    (hmax : 0 ≤ CVars.CollisionParticlesMax) :
    (Implicit.isSome = true →
      (NewSimplicial E CVars [] ⟨[]⟩ Implicit CollisionParticlesMaxInput).X = [vec 0 0 0]) ∧
    (Implicit = none →
      (NewSimplicial E CVars [] ⟨[]⟩ Implicit CollisionParticlesMaxInput).X = []) := by
  constructor
  · intro hI
    have hL := LocalCollisionParticlesMax_nonneg CVars CollisionParticlesMaxInput hmax
    obtain ⟨_, hOV⟩ := GatherOutsideVertices_no_cull E CVars [] ⟨[]⟩ Implicit
      CollisionParticlesMaxInput (Or.inr (Or.inr (by
        simpa [TTriangleMesh.GetVertexSet] using hL)))
    have hOV' : (GatherOutsideVertices E CVars [] ⟨[]⟩ Implicit
        CollisionParticlesMaxInput).OutsideVertices = [] := by
      rw [hOV]; rfl
    have hP : PrunedVertices E CVars (GatherOutsideVertices E CVars [] ⟨[]⟩ Implicit
        CollisionParticlesMaxInput) = [] := by
      simp only [PrunedVertices, hOV', hprune]
    have hNum : NumParticles ([] : List TVector)
        (LocalCollisionParticlesMax CVars CollisionParticlesMaxInput) = 0 := by
      simp only [NumParticles, List.length_nil]
      rw [if_neg (by push_cast; omega)]
      rfl
    simp only [NewSimplicial, hI, Bool.true_or, if_true, hP, hNum, CopyParticles]
    simp [OriginFallback, AddParticles, FVector.splat, vec, List.range_succ]
  · intro hI
    rw [hI]
    exact NewSimplicial_no_vertices_no_implicit E CVars ⟨[]⟩ CollisionParticlesMaxInput

/-- C2, witness: the half-space `x ≤ 0` as implicit volume, caller cap 5. -/
theorem NewSimplicial_empty_input_witness :
    ((some HalfSpace).isSome = true →
      (NewSimplicial (PassThroughEngine (fun _ => vec 0 0 0)) FConsoleVariables.initial [] ⟨[]⟩
        (some HalfSpace) 5).X = [vec 0 0 0]) ∧
    ((some HalfSpace) = none →
      (NewSimplicial (PassThroughEngine (fun _ => vec 0 0 0)) FConsoleVariables.initial [] ⟨[]⟩
        (some HalfSpace) 5).X = []) :=
  NewSimplicial_empty_input (PassThroughEngine (fun _ => vec 0 0 0)) FConsoleVariables.initial
    (some HalfSpace) 5 (fun _ => rfl) (by decide)

/-- C2, counterexample: an empty vertex set, a mesh without triangles and no implicit volume,
caller cap 5: the returned simplicial has no point. -/
theorem NewSimplicial_empty_counterexample :
    (NewSimplicial (PassThroughEngine (fun _ => vec 0 0 0)) FConsoleVariables.initial [] ⟨[]⟩
        none 5).X = [] ∧
    (NewSimplicial (PassThroughEngine (fun _ => vec 0 0 0)) FConsoleVariables.initial [] ⟨[]⟩
        none 5).X ≠ [vec 0 0 0] := by
  rw [NewSimplicial_no_vertices_no_implicit]
  exact ⟨rfl, by simp⟩

theorem CopyStep_NaNFirst (S : FSimplicial) (c : Nat) :
    CopyStep NaNFirstVertices (S, c) 0 = (S, c) ∧
    CopyStep NaNFirstVertices (S, c) 1 = (⟨S.X.set 1 (vec 1 0 0)⟩, c + 1) ∧
    CopyStep NaNFirstVertices (S, c) 2 = (⟨S.X.set 2 (vec 2 0 0)⟩, c + 1) := by
  simp [CopyStep, NaNFirstVertices, FVector.ContainsNaN, float.IsNaN, vec]

/-- C4, evaluation at the failing input: the pruned list is a point with a NaN component
followed by `(1, 0, 0)` and `(2, 0, 0)`.  Both variants keep the points at their index and cut
the container to the number of points without NaN: the simplicial holds the slot 0, which was
never written, and `(1, 0, 0)`, and `(2, 0, 0)` is lost. -/
theorem NewSimplicial_nan_copy (g : Nat → TVector) :
    NaNFirstVertices.filter (fun p => !p.ContainsNaN) = [vec 1 0 0, vec 2 0 0] ∧
    (NewSimplicial (PassThroughEngine g) FConsoleVariables.initial NaNFirstVertices OneTriangle
        none 0).X = [g 0, vec 1 0 0] ∧
    (NewSimplicialFraction (PassThroughEngine g) NaNFirstVertices OneTriangle (float.num 1)).X
      = [g 0, vec 1 0 0] := by
  have hr : List.range 3 = [0, 1, 2] := by decide
  refine ⟨?_, ?_, ?_⟩
  · simp [NaNFirstVertices, FVector.ContainsNaN, float.IsNaN, vec]
  · obtain ⟨_, hOV⟩ := GatherOutsideVertices_no_cull (PassThroughEngine g)
      FConsoleVariables.initial NaNFirstVertices OneTriangle none 0 (Or.inl rfl)
    have hOV' : (GatherOutsideVertices (PassThroughEngine g) FConsoleVariables.initial
        NaNFirstVertices OneTriangle none 0).OutsideVertices = NaNFirstVertices := by
      rw [hOV, GetVertexSet_OneTriangle]
      simp [TParticles.X, NaNFirstVertices]
    have hP : PrunedVertices (PassThroughEngine g) FConsoleVariables.initial
        (GatherOutsideVertices (PassThroughEngine g) FConsoleVariables.initial
          NaNFirstVertices OneTriangle none 0) = NaNFirstVertices := by
      simp only [PrunedVertices, hOV']
      rfl
    have hNum : NumParticles NaNFirstVertices
        (LocalCollisionParticlesMax FConsoleVariables.initial 0) = 3 := by
      decide
    have hsize : ((none : Option FImplicitQuery).isSome || NaNFirstVertices.Size != 0) = true := by
      decide
    simp only [NewSimplicial, hsize, if_true, hP, hNum, CopyParticles]
    rw [if_pos (by decide)]
    have h3 : (3 : Int).toNat = 3 := by decide
    rw [h3, hr]
    simp only [List.foldl_cons, List.foldl_nil, (CopyStep_NaNFirst _ _).1,
      (CopyStep_NaNFirst _ _).2.1, (CopyStep_NaNFirst _ _).2.2]
    simp [AddParticles, PassThroughEngine, Resize, OriginFallback, List.range_succ]
  · have hlen : NaNFirstVertices.length = 3 := rfl
    simp only [NewSimplicialFraction, CopyParticlesDescending, PassThroughEngine, hlen]
    rw [if_pos (by decide)]
    have h3 : ((3 : Nat) : Int).toNat = 3 := by decide
    have hrev : (List.range 3).reverse = [2, 1, 0] := by decide
    rw [hrev]
    simp only [List.foldl_cons, List.foldl_nil, (CopyStep_NaNFirst _ _).1,
      (CopyStep_NaNFirst _ _).2.1, (CopyStep_NaNFirst _ _).2.2]
    simp [AddParticles, Resize, OriginFallback, List.range_succ]

/-! ## Implicit volumes -/

/-- C10: for a non-null shape, `UpdateImplicitFlags` clears do-collide and convex and reports the
category LevelSet when the collision type is Surface-Volumetric and the shape is a level set; in
every other case both flags keep their values. -/
theorem UpdateImplicitFlags_spec (I : FImplicitObject) (CollisionType : ECollisionTypeEnum) :
    ((CollisionType = ECollisionTypeEnum.Chaos_Surface_Volumetric ∧
          I.GetType = ImplicitObjectType.LevelSet) →
        (UpdateImplicitFlags (some I) CollisionType).map FImplicitObject.bDoCollide
            = some false ∧
        (UpdateImplicitFlags (some I) CollisionType).map FImplicitObject.bIsConvex
            = some false ∧
        (UpdateImplicitFlags (some I) CollisionType).map FImplicitObject.CollisionType
            = some ImplicitObjectType.LevelSet) ∧
    (¬ (CollisionType = ECollisionTypeEnum.Chaos_Surface_Volumetric ∧
          I.GetType = ImplicitObjectType.LevelSet) →
        (UpdateImplicitFlags (some I) CollisionType).map FImplicitObject.bDoCollide
            = some I.bDoCollide ∧
        (UpdateImplicitFlags (some I) CollisionType).map FImplicitObject.bIsConvex
            = some I.bIsConvex) := by
  constructor
  · intro h
    have hc : CollisionType = ECollisionTypeEnum.Chaos_Surface_Volumetric ∧
        (I.SetCollisionType ImplicitObjectType.LevelSet).GetType
          = ImplicitObjectType.LevelSet := h
    simp only [UpdateImplicitFlags, if_pos h.1, if_pos hc]
    exact ⟨rfl, rfl, rfl⟩
  · intro h
    have hc : ¬ (CollisionType = ECollisionTypeEnum.Chaos_Surface_Volumetric ∧
        (I.SetCollisionType
          (if CollisionType = ECollisionTypeEnum.Chaos_Surface_Volumetric
            then ImplicitObjectType.LevelSet else I.GetType)).GetType
          = ImplicitObjectType.LevelSet) := h
    simp only [UpdateImplicitFlags, if_neg hc]
    exact ⟨rfl, rfl⟩

theorem UpdateImplicitFlags_isSome (I : FImplicitObject) (CollisionType : ECollisionTypeEnum) :
    (UpdateImplicitFlags (some I) CollisionType).isSome = true := by
  simp only [UpdateImplicitFlags]
  split_ifs <;> rfl

theorem UpdateImplicitFlags_geometry (I : FImplicitObject) (CollisionType : ECollisionTypeEnum) :
    (UpdateImplicitFlags (some I) CollisionType).map FImplicitObject.Geometry
      = some I.Geometry := by
  simp only [UpdateImplicitFlags]
  split_ifs <;> rfl

/-- C7: `NewImplicit` with the Box selector is `NewImplicitBox`, with the Sphere selector is
`NewImplicitSphere`, both return a volume for all arguments, and every selector other than Box,
Sphere and LevelSet gives no volume. -/
theorem NewImplicit_dispatch (E : FEngine) (ErrorReporter : FErrorReporter)
    (MeshParticles : TParticles) (TriMesh : TTriangleMesh) (CollisionBounds : FBox)
    (Radius : float) (MinRes MaxRes : Int) (CollisionObjectReduction : float)
    (CollisionType : ECollisionTypeEnum) :
    (NewImplicit E ErrorReporter MeshParticles TriMesh CollisionBounds Radius MinRes MaxRes
        CollisionObjectReduction CollisionType EImplicitTypeEnum.Chaos_Implicit_Box
      = NewImplicitBox CollisionBounds CollisionObjectReduction CollisionType ∧
     (NewImplicitBox CollisionBounds CollisionObjectReduction CollisionType).isSome = true) ∧
    (NewImplicit E ErrorReporter MeshParticles TriMesh CollisionBounds Radius MinRes MaxRes
        CollisionObjectReduction CollisionType EImplicitTypeEnum.Chaos_Implicit_Sphere
      = NewImplicitSphere Radius CollisionObjectReduction CollisionType ∧
     (NewImplicitSphere Radius CollisionObjectReduction CollisionType).isSome = true) ∧
    (∀ raw : Nat,
      NewImplicit E ErrorReporter MeshParticles TriMesh CollisionBounds Radius MinRes MaxRes
        CollisionObjectReduction CollisionType (EImplicitTypeEnum.Chaos_Implicit_Other raw)
      = none) := by
  refine ⟨⟨?_, ?_⟩, ⟨?_, ?_⟩, ?_⟩
  · simp [NewImplicit]
  · exact UpdateImplicitFlags_isSome _ _
  · simp [NewImplicit]
  · exact UpdateImplicitFlags_isSome _ _
  · intro raw; simp [NewImplicit]

theorem float_reduction_zero (Radius : float) :
    Radius.mul ((float.num 1).sub ((float.num 0).div (float.num 100))) = Radius := by
  cases Radius with
  | nan => simp [float.mul]
  | num q => simp [float.mul, float.sub, float.div]

/-- C8: `NewImplicitSphere` builds a sphere centred at the origin with radius
`Radius * (1 - CollisionObjectReduction / 100)`; with a reduction of 0 the radius is the input
radius, and radius 10 gives 10. -/
theorem NewImplicitSphere_radius (CollisionType : ECollisionTypeEnum) :
    (∀ Radius CollisionObjectReduction : float,
      (NewImplicitSphere Radius CollisionObjectReduction CollisionType).map
          FImplicitObject.Geometry
        = some (FGeometry.Sphere (vec 0 0 0)
            (Radius.mul ((float.num 1).sub (CollisionObjectReduction.div (float.num 100)))))) ∧
    (∀ Radius : float,
      (NewImplicitSphere Radius (float.num 0) CollisionType).map FImplicitObject.Geometry
        = some (FGeometry.Sphere (vec 0 0 0) Radius)) ∧
    (NewImplicitSphere (float.num 10) (float.num 0) CollisionType).map FImplicitObject.Geometry
        = some (FGeometry.Sphere (vec 0 0 0) (float.num 10)) := by
  have key : ∀ Radius CollisionObjectReduction : float,
      (NewImplicitSphere Radius CollisionObjectReduction CollisionType).map
          FImplicitObject.Geometry
        = some (FGeometry.Sphere (vec 0 0 0)
            (Radius.mul ((float.num 1).sub (CollisionObjectReduction.div (float.num 100))))) := by
    intro Radius red
    simp only [NewImplicitSphere]
    rw [UpdateImplicitFlags_geometry]
    rfl
  refine ⟨key, ?_, ?_⟩
  · intro Radius
    rw [key, float_reduction_zero]
  · rw [key, float_reduction_zero]

/-! ## Voxel counts of the level set -/

theorem wrapInt32_of_range (x : Int) (h1 : -2147483648 ≤ x) (h2 : x ≤ 2147483647) :
    wrapInt32 x = x := by
  unfold wrapInt32; omega

theorem castInt32_div_self (q : ℚ) (hq : q ≠ 0) :
    castInt32 ((float.num q).div (float.num q)) = 1 := by
  simp [float.div, hq, castInt32]

theorem ratio_count_self (MinRes : Int) (q : ℚ) (hq : q ≠ 0)
    (h1 : -2147483648 ≤ MinRes) (h2 : MinRes ≤ 2147483647) :
    mulInt32 MinRes (castInt32 ((float.num q).div (float.num q))) = MinRes := by
  rw [castInt32_div_self q hq, mulInt32, mul_one, wrapInt32_of_range MinRes h1 h2]

theorem LevelsetCounts_eq_min (Extents : FVector) (MinRes MaxRes : Int) :
    LevelsetCounts Extents MinRes MaxRes
      = ⟨min (UncappedCounts Extents MinRes).X MaxRes,
         min (UncappedCounts Extents MinRes).Y MaxRes,
         min (UncappedCounts Extents MinRes).Z MaxRes⟩ := by
  cases h : UncappedCounts Extents MinRes with
  | mk a b c =>
    simp only [LevelsetCounts, h]
    split_ifs <;> simp_all <;> omega

theorem UncappedCounts_X (x y z : ℚ) (MinRes : Int) (hy : 0 < y) (hz : 0 < z)
    (h1 : -2147483648 ≤ MinRes) (h2 : MinRes ≤ 2147483647) (hxy : x ≤ y) (hxz : x ≤ z) :
    (UncappedCounts (vec x y z) MinRes).X = MinRes := by
  simp only [UncappedCounts, vec, float.lt, Bool.and_eq_true, decide_eq_true_eq]
  split_ifs with c1 c2
  · rfl
  · have e : x = y := by
      rcases not_and_or.mp c1 with h | h
      · linarith
      · linarith
    subst e
    exact ratio_count_self MinRes x (ne_of_gt hy) h1 h2
  · have e : x = z := by
      rcases not_and_or.mp c1 with h | h
      · linarith
      · linarith
    subst e
    exact ratio_count_self MinRes x (ne_of_gt hz) h1 h2

theorem UncappedCounts_Y (x y z : ℚ) (MinRes : Int) (hx : 0 < x) (hz : 0 < z)
    (h1 : -2147483648 ≤ MinRes) (h2 : MinRes ≤ 2147483647) (hyx : y ≤ x) (hyz : y ≤ z) :
    (UncappedCounts (vec x y z) MinRes).Y = MinRes := by
  simp only [UncappedCounts, vec, float.lt, Bool.and_eq_true, decide_eq_true_eq]
  split_ifs with c1 c2
  · have e : y = x := by linarith [c1.1]
    subst e
    exact ratio_count_self MinRes y (ne_of_gt hx) h1 h2
  · rfl
  · have e : y = z := by linarith
    subst e
    exact ratio_count_self MinRes y (ne_of_gt hz) h1 h2

theorem UncappedCounts_Z (x y z : ℚ) (MinRes : Int) (hx : 0 < x) (hy : 0 < y)
    (h1 : -2147483648 ≤ MinRes) (h2 : MinRes ≤ 2147483647) (hzx : z ≤ x) (hzy : z ≤ y) :
    (UncappedCounts (vec x y z) MinRes).Z = MinRes := by
  simp only [UncappedCounts, vec, float.lt, Bool.and_eq_true, decide_eq_true_eq]
  split_ifs with c1 c2
  · have e : z = x := by linarith [c1.2]
    subst e
    exact ratio_count_self MinRes z (ne_of_gt hx) h1 h2
  · have e : z = y := by linarith
    subst e
    exact ratio_count_self MinRes z (ne_of_gt hy) h1 h2
  · rfl

theorem float_pos_iff (a : float) :
    (float.num 0).lt a = true ↔ ∃ q : ℚ, a = float.num q ∧ 0 < q := by
  cases a with
  | nan => simp [float.lt]
  | num q => simp [float.lt]

/-- C6, amended: for collision bounds with positive half-extents, an `int32` `MinRes` and any
`MaxRes`, the voxel count on every axis is at most `MaxRes`, and the count on an axis with the
smallest half-extent is the smaller of `MinRes` and `MaxRes`, which is `MinRes` exactly when
`MinRes ≤ MaxRes`. -/
theorem LevelsetCounts_bounds (Extents : FVector) (MinRes MaxRes : Int)
    (hX : (float.num 0).lt Extents.X = true) (hY : (float.num 0).lt Extents.Y = true)
    (hZ : (float.num 0).lt Extents.Z = true)
    (h1 : -2147483648 ≤ MinRes) (h2 : MinRes ≤ 2147483647) :
    ((LevelsetCounts Extents MinRes MaxRes).X ≤ MaxRes ∧
     (LevelsetCounts Extents MinRes MaxRes).Y ≤ MaxRes ∧
     (LevelsetCounts Extents MinRes MaxRes).Z ≤ MaxRes) ∧
    (Extents.X.le Extents.Y = true → Extents.X.le Extents.Z = true →
      (LevelsetCounts Extents MinRes MaxRes).X = min MinRes MaxRes) ∧
    (Extents.Y.le Extents.X = true → Extents.Y.le Extents.Z = true →
      (LevelsetCounts Extents MinRes MaxRes).Y = min MinRes MaxRes) ∧
    (Extents.Z.le Extents.X = true → Extents.Z.le Extents.Y = true →
      (LevelsetCounts Extents MinRes MaxRes).Z = min MinRes MaxRes) := by
  obtain ⟨X, Y, Z⟩ := Extents
  obtain ⟨x, rfl, hx⟩ := (float_pos_iff X).mp hX
  obtain ⟨y, rfl, hy⟩ := (float_pos_iff Y).mp hY
  obtain ⟨z, rfl, hz⟩ := (float_pos_iff Z).mp hZ
  rw [LevelsetCounts_eq_min]
  refine ⟨⟨min_le_right _ _, min_le_right _ _, min_le_right _ _⟩, ?_, ?_, ?_⟩
  · intro a b
    simp only [float.le, decide_eq_true_eq] at a b
    show min (UncappedCounts (vec x y z) MinRes).X MaxRes = min MinRes MaxRes
    rw [UncappedCounts_X x y z MinRes hy hz h1 h2 a b]
  · intro a b
    simp only [float.le, decide_eq_true_eq] at a b
    show min (UncappedCounts (vec x y z) MinRes).Y MaxRes = min MinRes MaxRes
    rw [UncappedCounts_Y x y z MinRes hx hz h1 h2 a b]
  · intro a b
    simp only [float.le, decide_eq_true_eq] at a b
    show min (UncappedCounts (vec x y z) MinRes).Z MaxRes = min MinRes MaxRes
    rw [UncappedCounts_Z x y z MinRes hx hy h1 h2 a b]

/-- C6, witness: half-extents `(1, 2, 3)`, `MinRes = 4`, `MaxRes = 6`. -/
theorem LevelsetCounts_bounds_witness :
    ((LevelsetCounts (vec 1 2 3) 4 6).X ≤ 6 ∧
     (LevelsetCounts (vec 1 2 3) 4 6).Y ≤ 6 ∧
     (LevelsetCounts (vec 1 2 3) 4 6).Z ≤ 6) ∧
    ((vec 1 2 3).X.le (vec 1 2 3).Y = true → (vec 1 2 3).X.le (vec 1 2 3).Z = true →
      (LevelsetCounts (vec 1 2 3) 4 6).X = min 4 6) ∧
    ((vec 1 2 3).Y.le (vec 1 2 3).X = true → (vec 1 2 3).Y.le (vec 1 2 3).Z = true →
      (LevelsetCounts (vec 1 2 3) 4 6).Y = min 4 6) ∧
    ((vec 1 2 3).Z.le (vec 1 2 3).X = true → (vec 1 2 3).Z.le (vec 1 2 3).Y = true →
      (LevelsetCounts (vec 1 2 3) 4 6).Z = min 4 6) :=
  LevelsetCounts_bounds (vec 1 2 3) 4 6 (by simp [vec, float.lt]) (by simp [vec, float.lt])
    (by simp [vec, float.lt]) (by decide) (by decide)

/-- C6, counterexample: with half-extents `(1, 2, 3)`, `MinRes = 10` and `MaxRes = 5` the X axis
has the smallest half-extent and its count is 5, not `MinRes`. -/
theorem LevelsetCounts_counterexample :
    (float.num 0).lt (vec 1 2 3).X = true ∧ (float.num 0).lt (vec 1 2 3).Y = true ∧
    (float.num 0).lt (vec 1 2 3).Z = true ∧
    (vec 1 2 3).X.lt (vec 1 2 3).Y = true ∧ (vec 1 2 3).X.lt (vec 1 2 3).Z = true ∧
    (LevelsetCounts (vec 1 2 3) 10 5).X = 5 ∧
    ¬ ((LevelsetCounts (vec 1 2 3) 10 5).X = 10) := by
  have h : (LevelsetCounts (vec 1 2 3) 10 5).X = 5 := by
    rw [LevelsetCounts_eq_min]
    show min (UncappedCounts (vec 1 2 3) 10).X 5 = 5
    rw [UncappedCounts_X 1 2 3 10 (by norm_num) (by norm_num) (by decide) (by decide)
      (by norm_num) (by norm_num)]
    decide
  refine ⟨by simp [vec, float.lt], by simp [vec, float.lt], by simp [vec, float.lt],
    by simp [vec, float.lt], by simp [vec, float.lt], h, ?_⟩
  rw [h]; decide

/-! ## Early returns of the level-set build -/

end FCollisionStructureManager
